import Mathlib

/-!
Shallow embedding of the xiangxinai Node.js client (src/src/client.ts) and
proofs of the specification claims about it.  Pure data shaping and the
retry loop are modelled as Lean functions; network and file I/O appear as
explicit per-attempt / per-image outcome oracles supplied by the
environment.
-/

namespace Xiangxinai

/-- Model of JavaScript String.prototype.trim on the character list:
whitespace is stripped from both ends. -/
def jsTrimList (l : List Char) : List Char :=
  ((l.dropWhile Char.isWhitespace).reverse.dropWhile Char.isWhitespace).reverse

/-- Model of JavaScript String.prototype.trim. -/
def jsTrim (s : String) : String :=
  ⟨jsTrimList s.data⟩

/-- JavaScript truthiness of an optional string argument such as userId:
undefined and the empty string are falsy. -/
def jsOptTruthy : Option String → Option String
  | none => none
  | some s => if s.isEmpty then none else some s

/-- risk result shape shared by compliance / security (types.ts
ComplianceResult / SecurityResult). -/
structure RiskResult where
  risk_level : String
  categories : List String
deriving DecidableEq, Repr

/-- GuardrailResult from types.ts (the optional data-security block is
omitted by createSafeResponse, so it is an Option here). -/
structure GuardrailResult where
  compliance : RiskResult
  security : RiskResult
  data : Option RiskResult
deriving DecidableEq, Repr

/-- GuardrailResponse from types.ts. -/
structure GuardrailResponse where
  id : String
  result : GuardrailResult
  overall_risk_level : String
  suggest_action : String
  suggest_answer : Option String
deriving DecidableEq, Repr

/-- XiangxinAI.createSafeResponse (client.ts lines 79-96). -/
def createSafeResponse : GuardrailResponse :=
  { id := "guardrails-safe-default"
    result :=
      { compliance := { risk_level := "no_risk", categories := [] }
        security := { risk_level := "no_risk", categories := [] }
        data := none }
    overall_risk_level := "no_risk"
    suggest_action := "pass"
    suggest_answer := none }

/-- A part of a multimodal message content array. -/
inductive ContentPart where
  | text (t : String)
  | image (url : String)
deriving DecidableEq, Repr

/-- Message content: a plain string or a list of content parts
(types.ts: `content: string | any[]`). -/
inductive MsgContent where
  | str (s : String)
  | parts (ps : List ContentPart)
deriving DecidableEq, Repr

/-- A validated outgoing message (types.ts Message). -/
structure Message where
  role : String
  content : MsgContent
deriving DecidableEq, Repr

/-- An incoming conversation element as JavaScript sees it: the role may
be missing (undefined), and the content may be any value, of which only
strings are accepted.  `JsVal.other` stands for every non-string value. -/
inductive JsVal where
  | str (s : String)
  | other
deriving DecidableEq, Repr

/-- Raw caller-supplied message before validation (an object with possibly
missing or non-string fields). -/
structure RawMessage where
  role : Option String
  content : JsVal
deriving DecidableEq, Repr

/-- The JSON body the client would POST, by endpoint shape. -/
inductive RequestBody where
  | inputBody (input : String) (userId : Option String)
  | outputBody (input : String) (output : String) (userId : Option String)
  | convBody (model : String) (messages : List Message) (extraUserId : Option String)
deriving DecidableEq, Repr

/-- The typed errors of exceptions.ts. -/
inductive ClientError where
  | authenticationError (msg : String)
  | rateLimitError (msg : String)
  | validationError (msg : String)
  | networkError (msg : String)
  | xiangxinAIError (msg : String)
deriving DecidableEq, Repr

/-- What a public operation does up to (and excluding) the network send:
resolve locally with a verdict, issue a request, or throw. -/
inductive CheckAction where
  | localVerdict (r : GuardrailResponse)
  | request (method : String) (endpoint : String) (body : RequestBody)
  | fail (e : ClientError)
deriving DecidableEq, Repr

/-- XiangxinAI.checkPrompt (client.ts lines 139-157), up to the network
boundary: empty / all-whitespace content short-circuits to the safe
response, otherwise the trimmed input is POSTed to /guardrails/input. -/
def checkPrompt (content : String) (userId : Option String) : CheckAction :=
  if content.isEmpty || (jsTrim content).isEmpty then
    .localVerdict createSafeResponse
  else
    .request "POST" "/guardrails/input" (.inputBody (jsTrim content) (jsOptTruthy userId))

/-- The per-message validation and filtering loop of
XiangxinAI.checkConversation (client.ts lines 198-214), processed
front-to-back exactly as the for-loop does: the first malformed message
throws; messages with non-empty trimmed content are kept verbatim.
Returns the kept messages together with the allEmpty flag. -/
def validateLoop : List RawMessage → Except ClientError (List Message × Bool)
  | [] => .ok ([], true)
  | msg :: rest =>
    match msg.role with
    | none => .error (.validationError "Each message must have 'role' and 'content' fields")
    | some role =>
      if role.isEmpty then
        .error (.validationError "Each message must have 'role' and 'content' fields")
      else
        match msg.content with
        | .other => .error (.validationError "Each message must have 'role' and 'content' fields")
        | .str content =>
          if !(role = "user" || role = "system" || role = "assistant") then
            .error (.validationError "role must be one of: user, system, assistant")
          else
            match validateLoop rest with
            | .error e => .error e
            | .ok (validated, allEmpty) =>
              if !content.isEmpty && !(jsTrim content).isEmpty then
                .ok (⟨role, .str content⟩ :: validated, false)
              else
                .ok (validated, allEmpty)

/-- XiangxinAI.checkConversation (client.ts lines 185-239), up to the
network boundary.  An absent (`none`) or empty messages argument throws;
each element is validated; if every content is empty (or no message
survives filtering) the safe response is returned locally; otherwise the
filtered messages are POSTed to /guardrails. -/
def checkConversation (messages : Option (List RawMessage)) (model : String)
    (userId : Option String) : CheckAction :=
  match messages with
  | none => .fail (.validationError "Messages cannot be empty")
  | some msgs =>
    if msgs.length = 0 then .fail (.validationError "Messages cannot be empty")
    else
      match validateLoop msgs with
      | .error e => .fail e
      | .ok (validatedMessages, allEmpty) =>
        if allEmpty then .localVerdict createSafeResponse
        else if validatedMessages.length = 0 then .localVerdict createSafeResponse
        else .request "POST" "/guardrails"
          (.convBody model validatedMessages (jsOptTruthy userId))

/-- XiangxinAI.checkResponseCtx (client.ts lines 274-294), up to the
network boundary: only when both prompt and response trim to empty is the
safe response returned locally; otherwise the two independently trimmed
strings are POSTed to /guardrails/output. -/
def checkResponseCtx (prompt response : String) (userId : Option String) : CheckAction :=
  if (prompt.isEmpty || (jsTrim prompt).isEmpty)
      && (response.isEmpty || (jsTrim response).isEmpty) then
    .localVerdict createSafeResponse
  else
    .request "POST" "/guardrails/output"
      (.outputBody (if prompt.isEmpty then "" else jsTrim prompt)
        (if response.isEmpty then "" else jsTrim response)
        (jsOptTruthy userId))

/-- Outcome of resolving one image reference
(XiangxinAI.encodeBase64FromPath): the base64 payload on success, an
ENOENT failure for a missing local file, or any other failure with its
message. -/
inductive ImageResult where
  | ok (base64 : String)
  | enoent
  | otherError (msg : String)
deriving DecidableEq, Repr

/-- XiangxinAI.checkPromptImage (client.ts lines 339-390), up to the
network boundary, with image resolution supplied by the `resolve`
oracle. -/
def checkPromptImage (prompt image : String) (model : String) (userId : Option String)
    (resolve : String → ImageResult) : CheckAction :=
  if image.isEmpty then .fail (.validationError "Image path cannot be empty")
  else
    match resolve image with
    | .enoent => .fail (.validationError ("Image file not found: " ++ image))
    | .otherError msg => .fail (.xiangxinAIError ("Failed to encode image: " ++ msg))
    | .ok imageBase64 =>
      let content : List ContentPart :=
        (if !prompt.isEmpty && !(jsTrim prompt).isEmpty
          then [.text (jsTrim prompt)] else [])
        ++ [.image ("data:image/jpeg;base64," ++ imageBase64)]
      .request "POST" "/guardrails"
        (.convBody model [⟨"user", .parts content⟩] (jsOptTruthy userId))

/-- The image-encoding loop of XiangxinAI.checkPromptImages (client.ts
lines 435-448): resolve each reference in order, stopping at the first
failure with the corresponding typed error. -/
def encodeImages (resolve : String → ImageResult) : List String → Except ClientError (List ContentPart)
  | [] => .ok []
  | imagePath :: rest =>
    match resolve imagePath with
    | .enoent => .error (.validationError ("Image file not found: " ++ imagePath))
    | .otherError msg =>
      .error (.xiangxinAIError ("Failed to encode image " ++ imagePath ++ ": " ++ msg))
    | .ok imageBase64 =>
      match encodeImages resolve rest with
      | .error e => .error e
      | .ok ps => .ok (.image ("data:image/jpeg;base64," ++ imageBase64) :: ps)

/-- XiangxinAI.checkPromptImages (client.ts lines 418-470), up to the
network boundary.  A missing (`none`) or empty images list throws; the
text part is prepended only when the trimmed prompt is non-empty. -/
def checkPromptImages (prompt : String) (images : Option (List String)) (model : String)
    (userId : Option String) (resolve : String → ImageResult) : CheckAction :=
  match images with
  | none => .fail (.validationError "Images list cannot be empty")
  | some imgs =>
    if imgs.length = 0 then .fail (.validationError "Images list cannot be empty")
    else
      match encodeImages resolve imgs with
      | .error e => .fail e
      | .ok imageParts =>
        let content : List ContentPart :=
          (if !prompt.isEmpty && !(jsTrim prompt).isEmpty
            then [.text (jsTrim prompt)] else [])
          ++ imageParts
        .request "POST" "/guardrails"
          (.convBody model [⟨"user", .parts content⟩] (jsOptTruthy userId))

/-- One HTTP attempt's outcome, as the catch block of
XiangxinAI.makeRequest classifies it: a 2xx response with decoded body
`v`; an axios error carrying a response with a status, an optional
detail field and the raw body text; a timeout (ECONNABORTED); any other
axios transport failure; a non-axios exception that is one of the
client's own typed errors; or any other non-axios exception rendered as
a string. -/
inductive Outcome (α : Type) where
  | ok (v : α)
  | http (status : Nat) (detail : Option String) (raw : String)
  | timeout
  | connFail
  | thrownClientError (e : ClientError)
  | thrownOther (s : String)

/-- JavaScript `a || b` on an optional detail string: a missing or empty
detail falls back to the default. -/
def jsOrElse (d : Option String) (fallback : String) : String :=
  match d with
  | none => fallback
  | some t => if t.isEmpty then fallback else t

/-- What one iteration of the makeRequest retry loop does with an
attempt's outcome (client.ts lines 495-569): return / throw (`done`) or
sleep for the given milliseconds and continue (`retry`). -/
inductive StepResult (α : Type) where
  | done (r : Except ClientError α)
  | retry (sleepMs : Nat)

/-- JavaScript string rendering of a thrown client error
(`Unexpected error: ${error}` renders an Error as `name: message`). -/
def errToString : ClientError → String
  | .authenticationError m => "AuthenticationError: " ++ m
  | .rateLimitError m => "RateLimitError: " ++ m
  | .validationError m => "ValidationError: " ++ m
  | .networkError m => "NetworkError: " ++ m
  | .xiangxinAIError m => "XiangxinAIError: " ++ m

/-- The body of the makeRequest retry loop at a given attempt index,
mirroring the try/catch of client.ts lines 495-569. -/
def processOutcome (maxRetries attempt : Nat) : Outcome α → StepResult α
  | .ok v => .done (.ok v)
  | .http status detail raw =>
    if status = 401 then
      .done (.error (.authenticationError "Invalid API key"))
    else if status = 422 then
      .done (.error (.validationError
        ("Validation error: " ++ jsOrElse detail "Validation error")))
    else if status = 429 then
      if attempt < maxRetries then .retry (2 ^ attempt * 1000 + 1000)
      else .done (.error (.rateLimitError "Rate limit exceeded"))
    else
      .done (.error (.xiangxinAIError
        ("API request failed with status " ++ toString status ++ ": "
          ++ jsOrElse detail raw)))
  | .timeout =>
    if attempt < maxRetries then .retry 1000
    else .done (.error (.xiangxinAIError "Request timeout"))
  | .connFail =>
    if attempt < maxRetries then .retry 1000
    else .done (.error (.networkError "Connection error"))
  | .thrownClientError e =>
    match e with
    | .authenticationError m => .done (.error (.authenticationError m))
    | .validationError m => .done (.error (.validationError m))
    | .rateLimitError m => .done (.error (.rateLimitError m))
    | e =>
      if attempt < maxRetries then .retry 1000
      else .done (.error (.xiangxinAIError ("Unexpected error: " ++ errToString e)))
  | .thrownOther s =>
    if attempt < maxRetries then .retry 1000
    else .done (.error (.xiangxinAIError ("Unexpected error: " ++ s)))

/-- The observable trace of one makeRequest call: the backoff sleeps in
order (milliseconds), the number of HTTP attempts performed, and the
final result — `none` models the loop falling through without returning,
which the code never does (proved below). -/
structure RunResult (α : Type) where
  sleeps : List Nat
  attempts : Nat
  result : Option (Except ClientError α)

/-- The makeRequest retry loop from attempt index `attempt`, with `fuel`
loop iterations remaining (the for-loop grants maxRetries + 1 in total).
`outcomes k` is what the k-th HTTP attempt yields. -/
def makeRequestLoop (maxRetries : Nat) (outcomes : Nat → Outcome α) :
    Nat → Nat → RunResult α
  | _, 0 => ⟨[], 0, none⟩
  | attempt, fuel + 1 =>
    match processOutcome maxRetries attempt (outcomes attempt) with
    | .done r => ⟨[], 1, some r⟩
    | .retry ms =>
      let rest := makeRequestLoop maxRetries outcomes (attempt + 1) fuel
      ⟨ms :: rest.sleeps, rest.attempts + 1, rest.result⟩

/-- XiangxinAI.makeRequest (client.ts lines 489-572): the full retry loop
`for (let attempt = 0; attempt <= maxRetries; attempt++)`. -/
def makeRequest (maxRetries : Nat) (outcomes : Nat → Outcome α) : RunResult α :=
  makeRequestLoop maxRetries outcomes 0 (maxRetries + 1)

/-- The outcome classes the retry loop actually sleeps on and retries:
HTTP 429, transport timeout, other transport failure, and non-axios
exceptions that are not one of AuthenticationError / ValidationError /
RateLimitError. -/
def retryableOutcome : Outcome α → Bool
  | .http s _ _ => s = 429
  | .timeout => true
  | .connFail => true
  | .thrownOther _ => true
  | .thrownClientError (.networkError _) => true
  | .thrownClientError (.xiangxinAIError _) => true
  | .thrownClientError _ => false
  | .ok _ => false

/-- A raw message whose role field is missing or falsy (undefined or the
empty string), which the validation loop rejects first. -/
def roleMissing (msg : RawMessage) : Bool :=
  match msg.role with
  | none => true
  | some r => r.isEmpty

/-- A raw message carrying a role outside {user, system, assistant}. -/
def roleOutside (msg : RawMessage) : Bool :=
  match msg.role with
  | none => false
  | some r => !(r = "user" || r = "system" || r = "assistant")

/-- A raw message whose content is not a string value. -/
def contentNotString (msg : RawMessage) : Bool :=
  match msg.content with
  | .str _ => false
  | .other => true

/-- The conditions under which checkConversation rejects one message with
a ValidationError. -/
def badMessage (msg : RawMessage) : Bool :=
  roleMissing msg || roleOutside msg || contentNotString msg

/-- The string content of a raw message (empty for non-string content). -/
def rawContentStr (msg : RawMessage) : String :=
  match msg.content with
  | .str c => c
  | .other => ""

/-- The condition under which the validation loop keeps a message for the
outgoing request: string content that is non-empty and does not trim to
empty. -/
def keepMsg (msg : RawMessage) : Bool :=
  match msg.content with
  | .str c => !c.isEmpty && !(jsTrim c).isEmpty
  | .other => false

section Lemmas

/-- Trimming a string of whitespace characters yields the empty string. -/
theorem jsTrim_eq_empty_of_whitespace (s : String) (h : ∀ c ∈ s.data, c.isWhitespace) :
    jsTrim s = "" := by
  have h1 : s.data.dropWhile Char.isWhitespace = [] := List.dropWhile_eq_nil_iff.mpr h
  simp [jsTrim, jsTrimList, h1]

/-- Trimming the empty string yields the empty string. -/
theorem jsTrim_empty : jsTrim "" = "" := rfl

/-- An empty string trims to the empty string. -/
theorem jsTrim_of_isEmpty (s : String) (h : s.isEmpty = true) : jsTrim s = "" := by
  rw [String.isEmpty_iff] at h
  subst h
  rfl

/-- The JavaScript guard `!s || !s.trim()` is equivalent to the trimmed
string being empty. -/
theorem orEmpty_eq (s : String) : (s.isEmpty || (jsTrim s).isEmpty) = (jsTrim s).isEmpty := by
  cases hb : s.isEmpty with
  | false => simp
  | true => rw [jsTrim_of_isEmpty s hb]; rfl

/-- A non-empty string has isEmpty false. -/
theorem isEmpty_eq_false_of_ne (s : String) (h : s ≠ "") : s.isEmpty = false := by
  rw [Bool.eq_false_iff]
  intro hc
  exact h ((String.isEmpty_iff s).mp hc)

/-- The JavaScript expression `s ? s.trim() : ''` always equals the
trimmed string. -/
theorem jsIfEmpty (s : String) : (if s.isEmpty then "" else jsTrim s) = jsTrim s := by
  cases hb : s.isEmpty with
  | false => simp
  | true => simp [jsTrim_of_isEmpty s hb]

/-- checkResponseCtx rewritten through the trim guards. -/
theorem checkResponseCtx_eq (p r : String) (u : Option String) :
    checkResponseCtx p r u =
      if (jsTrim p).isEmpty && (jsTrim r).isEmpty then
        .localVerdict createSafeResponse
      else
        .request "POST" "/guardrails/output"
          (.outputBody (jsTrim p) (jsTrim r) (jsOptTruthy u)) := by
  unfold checkResponseCtx
  rw [orEmpty_eq, orEmpty_eq, jsIfEmpty, jsIfEmpty]

/-- Definitional unfolding of one iteration of the retry loop. -/
theorem makeRequestLoop_succ (m : Nat) (outs : Nat → Outcome α) (a f : Nat) :
    makeRequestLoop m outs a (f + 1) =
      match processOutcome m a (outs a) with
      | .done r => ⟨[], 1, some r⟩
      | .retry ms =>
        let rest := makeRequestLoop m outs (a + 1) f
        ⟨ms :: rest.sleeps, rest.attempts + 1, rest.result⟩ := rfl

/-- Every branch of the loop body that sleeps and continues is guarded by
`attempt < maxRetries`. -/
theorem processOutcome_retry_lt (m a : Nat) (o : Outcome α) (ms : Nat)
    (h : processOutcome m a o = .retry ms) : a < m := by
  by_contra ham
  cases o with
  | ok v => simp [processOutcome] at h
  | http s d raw =>
    simp only [processOutcome] at h
    split_ifs at h
  | timeout => simp [processOutcome, ham] at h
  | connFail => simp [processOutcome, ham] at h
  | thrownClientError e =>
    cases e <;> simp [processOutcome, ham] at h
  | thrownOther s => simp [processOutcome, ham] at h

/-- The loop performs at most `fuel` HTTP attempts. -/
theorem makeRequestLoop_attempts_le (m : Nat) (outs : Nat → Outcome α) :
    ∀ f a, (makeRequestLoop m outs a f).attempts ≤ f := by
  intro f
  induction f with
  | zero =>
    intro a
    simp [makeRequestLoop]
  | succ f ih =>
    intro a
    rw [makeRequestLoop_succ]
    cases h : processOutcome m a (outs a) with
    | done r => simp
    | retry ms => simpa using Nat.succ_le_succ (ih (a + 1))

/-- With at least one iteration left and enough fuel to reach attempt
index `maxRetries`, the loop always returns or throws (it never falls
through). -/
theorem makeRequestLoop_result_isSome (m : Nat) (outs : Nat → Outcome α) :
    ∀ f a, 1 ≤ f → m + 1 ≤ a + f → (makeRequestLoop m outs a f).result.isSome := by
  intro f
  induction f with
  | zero =>
    intro a h1 _
    omega
  | succ f ih =>
    intro a _ hle
    rw [makeRequestLoop_succ]
    cases h : processOutcome m a (outs a) with
    | done r => simp
    | retry ms =>
      have ha : a < m := processOutcome_retry_lt m a _ ms h
      simpa using ih (a + 1) (by omega) (by omega)

/-- The JavaScript keep-guard `content && content.trim()` is equivalent
to the trimmed content being non-empty. -/
theorem notEmpty_and_eq (s : String) :
    (!s.isEmpty && !(jsTrim s).isEmpty) = !(jsTrim s).isEmpty := by
  cases hb : s.isEmpty with
  | false => simp
  | true => rw [jsTrim_of_isEmpty s hb]; rfl

/-- keepMsg is exactly: the trimmed string content is non-empty. -/
theorem keepMsg_eq (msg : RawMessage) :
    keepMsg msg = !(jsTrim (rawContentStr msg)).isEmpty := by
  obtain ⟨mrole, mcontent⟩ := msg
  cases mcontent with
  | str c =>
    simp only [keepMsg, rawContentStr]
    exact notEmpty_and_eq c
  | other => rfl

/-- Unfolding of the validation loop on a well-formed head message. -/
theorem validateLoop_cons_wf (r c : String) (rest : List RawMessage)
    (hre : r.isEmpty = false)
    (hroles : (r = "user" || r = "system" || r = "assistant") = true) :
    validateLoop (⟨some r, .str c⟩ :: rest) =
      match validateLoop rest with
      | .error e => .error e
      | .ok (validated, allEmpty) =>
        if !c.isEmpty && !(jsTrim c).isEmpty then
          .ok (⟨r, .str c⟩ :: validated, false)
        else
          .ok (validated, allEmpty) := by
  simp only [validateLoop, hre, hroles, Bool.not_true, Bool.false_eq_true, if_false]

/-- On a list of well-formed messages the validation loop succeeds, keeps
exactly the messages whose trimmed content is non-empty (verbatim, in
order), and reports allEmpty exactly when it kept nothing. -/
theorem validateLoop_ok_of_wf (msgs : List RawMessage)
    (h : ∀ msg ∈ msgs, badMessage msg = false) :
    validateLoop msgs = .ok
      ((msgs.filter keepMsg).map
        (fun msg => ⟨msg.role.getD "", .str (rawContentStr msg)⟩),
        msgs.all (fun msg => !keepMsg msg)) := by
  induction msgs with
  | nil => rfl
  | cons msg rest ih =>
    have hmsg : badMessage msg = false := h msg (List.mem_cons_self msg rest)
    have hrest : ∀ m ∈ rest, badMessage m = false :=
      fun m hm => h m (List.mem_cons_of_mem msg hm)
    obtain ⟨mrole, mcontent⟩ := msg
    cases mrole with
    | none => simp [badMessage, roleMissing] at hmsg
    | some r =>
      cases mcontent with
      | other => simp [badMessage, contentNotString] at hmsg
      | str c =>
        simp only [badMessage, roleMissing, roleOutside, contentNotString,
          Bool.or_eq_false_iff] at hmsg
        obtain ⟨⟨hre, hro⟩, -⟩ := hmsg
        have hroles : (r = "user" || r = "system" || r = "assistant") = true := by
          cases hb : (r = "user" || r = "system" || r = "assistant") with
          | true => rfl
          | false => rw [hb] at hro; simp at hro
        rw [validateLoop_cons_wf r c rest hre hroles, ih hrest]
        rw [List.filter_cons, List.all_cons]
        have hk : keepMsg ⟨some r, .str c⟩ = (!c.isEmpty && !(jsTrim c).isEmpty) := rfl
        cases hkc : (!c.isEmpty && !(jsTrim c).isEmpty) with
        | true => simp [hk, hkc, rawContentStr]
        | false => simp [hk, hkc]

/-- A list containing a malformed message makes the validation loop fail
with a ValidationError. -/
theorem validateLoop_error_of_bad (msgs : List RawMessage)
    (h : ∃ msg ∈ msgs, badMessage msg = true) :
    ∃ s, validateLoop msgs = .error (.validationError s) := by
  induction msgs with
  | nil =>
    obtain ⟨m, hm, _⟩ := h
    exact absurd hm (List.not_mem_nil m)
  | cons msg rest ih =>
    obtain ⟨mrole, mcontent⟩ := msg
    by_cases hbad : badMessage ⟨mrole, mcontent⟩ = true
    · cases mrole with
      | none =>
        exact ⟨"Each message must have 'role' and 'content' fields", rfl⟩
      | some r =>
        cases hre : r.isEmpty with
        | true =>
          refine ⟨"Each message must have 'role' and 'content' fields", ?_⟩
          simp [validateLoop, hre]
        | false =>
          cases mcontent with
          | other =>
            refine ⟨"Each message must have 'role' and 'content' fields", ?_⟩
            simp [validateLoop, hre]
          | str c =>
            have hro : (!(r = "user" || r = "system" || r = "assistant")) = true := by
              simp only [badMessage, roleMissing, roleOutside, contentNotString, hre,
                Bool.or_eq_true, Bool.false_eq_true, false_or, or_false] at hbad
              exact hbad
            refine ⟨"role must be one of: user, system, assistant", ?_⟩
            simp [validateLoop, hre, hro]
    · obtain ⟨s, hs⟩ : ∃ s, validateLoop rest = .error (.validationError s) := by
        apply ih
        obtain ⟨m, hm, hmb⟩ := h
        rcases List.mem_cons.mp hm with rfl | hm
        · exact absurd hmb hbad
        · exact ⟨m, hm, hmb⟩
      rw [Bool.not_eq_true] at hbad
      cases mrole with
      | none => simp [badMessage, roleMissing] at hbad
      | some r =>
        cases mcontent with
        | other => simp [badMessage, contentNotString] at hbad
        | str c =>
          simp only [badMessage, roleMissing, roleOutside, contentNotString,
            Bool.or_eq_false_iff] at hbad
          obtain ⟨⟨hre, hro⟩, -⟩ := hbad
          have hroles : (r = "user" || r = "system" || r = "assistant") = true := by
            cases hb : (r = "user" || r = "system" || r = "assistant") with
            | true => rfl
            | false => rw [hb] at hro; simp at hro
          refine ⟨s, ?_⟩
          rw [validateLoop_cons_wf r c rest hre hroles, hs]

/-- When every image reference resolves, the encoding loop succeeds. -/
theorem encodeImages_ok_of_all (resolve : String → ImageResult) (imgs : List String)
    (h : ∀ i ∈ imgs, ∃ b, resolve i = .ok b) :
    ∃ ps, encodeImages resolve imgs = .ok ps := by
  induction imgs with
  | nil => exact ⟨[], rfl⟩
  | cons i rest ih =>
    obtain ⟨b, hb⟩ := h i (List.mem_cons_self i rest)
    obtain ⟨ps, hps⟩ := ih (fun j hj => h j (List.mem_cons_of_mem i hj))
    rw [encodeImages, hb, hps]
    exact ⟨_, rfl⟩

/-- An encoding failure after a prefix of successfully resolved images
surfaces unchanged. -/
theorem encodeImages_append_error (resolve : String → ImageResult) (pre : List String)
    (h : ∀ i ∈ pre, ∃ b, resolve i = .ok b) (x : List String) (e : ClientError)
    (hx : encodeImages resolve x = .error e) :
    encodeImages resolve (pre ++ x) = .error e := by
  induction pre with
  | nil => simpa using hx
  | cons i rest ih =>
    obtain ⟨b, hb⟩ := h i (List.mem_cons_self i rest)
    rw [List.cons_append, encodeImages, hb,
      ih (fun j hj => h j (List.mem_cons_of_mem i hj))]

/-- On a non-empty list of well-formed messages checkConversation never
throws: it short-circuits or issues a request. -/
theorem checkConversation_wf_not_fail (msgs : List RawMessage) (model : String)
    (uid : Option String) (hne : msgs ≠ [])
    (hwf : ∀ msg ∈ msgs, badMessage msg = false) (e : ClientError) :
    checkConversation (some msgs) model uid ≠ .fail e := by
  intro hcontra
  simp only [checkConversation, validateLoop_ok_of_wf msgs hwf] at hcontra
  have hlen : ¬(msgs.length = 0) := by simpa using hne
  rw [if_neg hlen] at hcontra
  split_ifs at hcontra

end Lemmas

section Claims

/-- C4: for every string that is empty or all-whitespace, checkPrompt
resolves locally (no network request) with the synthetic safe verdict:
suggest_action "pass", overall_risk_level "no_risk", empty category
lists in both the compliance and security results, and the fixed
sentinel id "guardrails-safe-default". -/
theorem checkPrompt_empty_short_circuit (s : String) (uid : Option String)
    (h : s = "" ∨ ∀ c ∈ s.data, c.isWhitespace) :
    checkPrompt s uid = .localVerdict createSafeResponse ∧
    createSafeResponse.suggest_action = "pass" ∧
    createSafeResponse.overall_risk_level = "no_risk" ∧
    createSafeResponse.result.compliance.categories = [] ∧
    createSafeResponse.result.security.categories = [] ∧
    createSafeResponse.id = "guardrails-safe-default" := by
  have hw : ∀ c ∈ s.data, c.isWhitespace := by
    rcases h with h | h
    · subst h
      intro c hc
      simp at hc
    · exact h
  have ht : jsTrim s = "" := jsTrim_eq_empty_of_whitespace s hw
  refine ⟨?_, rfl, rfl, rfl, rfl, rfl⟩
  unfold checkPrompt
  have he : ("" : String).isEmpty = true := rfl
  rw [ht, he]
  simp

/-- Witness for C4 at the concrete all-whitespace input consisting of one
space. -/
theorem checkPrompt_empty_short_circuit_witness :
    checkPrompt " " none = .localVerdict createSafeResponse ∧
    createSafeResponse.suggest_action = "pass" ∧
    createSafeResponse.overall_risk_level = "no_risk" ∧
    createSafeResponse.result.compliance.categories = [] ∧
    createSafeResponse.result.security.categories = [] ∧
    createSafeResponse.id = "guardrails-safe-default" :=
  checkPrompt_empty_short_circuit " " none (Or.inr (by decide))

/-- C7: checkResponseCtx short-circuits to the local safe verdict exactly
when both prompt and response trim to empty; when exactly one of the two
is non-empty it issues a POST to /guardrails/output whose body carries
the independently trimmed prompt and response. -/
theorem checkResponseCtx_spec (p r : String) (u : Option String) :
    (checkResponseCtx p r u = .localVerdict createSafeResponse ↔
      jsTrim p = "" ∧ jsTrim r = "") ∧
    ((jsTrim p = "" ∧ jsTrim r ≠ "") ∨ (jsTrim p ≠ "" ∧ jsTrim r = "") →
      checkResponseCtx p r u = .request "POST" "/guardrails/output"
        (.outputBody (jsTrim p) (jsTrim r) (jsOptTruthy u))) := by
  rw [checkResponseCtx_eq]
  by_cases hp : jsTrim p = ""
  · by_cases hr : jsTrim r = ""
    · constructor
      · simp [hp, hr, String.isEmpty_iff]
      · rintro (⟨_, hc⟩ | ⟨hc, _⟩) <;> exact absurd (by assumption) hc
    · have : ((jsTrim p).isEmpty && (jsTrim r).isEmpty) = false := by
        rw [isEmpty_eq_false_of_ne _ hr, Bool.and_false]
      rw [this]
      constructor
      · simp [hr]
      · intro _
        rfl
  · have : ((jsTrim p).isEmpty && (jsTrim r).isEmpty) = false := by
      rw [isEmpty_eq_false_of_ne _ hp, Bool.false_and]
    rw [this]
    constructor
    · simp [hp]
    · intro _
      rfl

/-- Witness for C7 at the concrete inputs: empty prompt with non-empty
response, exercising the exactly-one-non-empty branch. -/
theorem checkResponseCtx_spec_witness :
    checkResponseCtx "" "x" none = .request "POST" "/guardrails/output"
      (.outputBody (jsTrim "") (jsTrim "x") (jsOptTruthy none)) :=
  (checkResponseCtx_spec "" "x" none).2 (Or.inl ⟨rfl, by decide⟩)

/-- C1: with max_retries at least 2 and per-attempt outcomes 429, 429,
then a 2xx response with decodable body v, makeRequest sleeps exactly
twice, 2000 ms then 3000 ms, and resolves with v; and in general the
sleep before retrying a 429 at attempt index k is 2^k * 1000 + 1000 ms. -/
theorem makeRequest_backoff_429 (m : Nat) (hm : 2 ≤ m)
    (outs : Nat → Outcome GuardrailResponse) (v : GuardrailResponse)
    (d0 d1 : Option String) (r0 r1 : String)
    (h0 : outs 0 = .http 429 d0 r0) (h1 : outs 1 = .http 429 d1 r1)
    (h2 : outs 2 = .ok v) :
    (makeRequest m outs).sleeps = [2000, 3000] ∧
    (makeRequest m outs).result = some (.ok v) ∧
    (∀ k, k < m → ∀ (d : Option String) (raw : String),
      processOutcome (α := GuardrailResponse) m k (.http 429 d raw)
        = .retry (2 ^ k * 1000 + 1000)) := by
  obtain ⟨m', rfl⟩ : ∃ m', m = m' + 2 := ⟨m - 2, by omega⟩
  have e0 : processOutcome (m' + 2) 0 (outs 0) = .retry 2000 := by
    rw [h0]
    have hlt : 0 < m' + 2 := by omega
    simp [processOutcome, hlt]
  have e1 : processOutcome (m' + 2) 1 (outs 1) = .retry 3000 := by
    rw [h1]
    have hlt : 1 < m' + 2 := by omega
    simp [processOutcome, hlt]
  have e2 : processOutcome (m' + 2) 2 (outs 2) = .done (.ok v) := by
    rw [h2]
    simp [processOutcome]
  have hrun : makeRequest (m' + 2) outs = ⟨[2000, 3000], 3, some (.ok v)⟩ := by
    unfold makeRequest
    rw [show m' + 2 + 1 = (m' + 2) + 1 from rfl, makeRequestLoop_succ, e0]
    dsimp only
    rw [show m' + 2 = (m' + 1) + 1 from rfl, makeRequestLoop_succ]
    rw [show (0 : Nat) + 1 = 1 from rfl, e1]
    dsimp only
    rw [show m' + 1 = m' + 1 from rfl, makeRequestLoop_succ]
    rw [show (1 : Nat) + 1 = 2 from rfl, e2]
  refine ⟨by rw [hrun], by rw [hrun], ?_⟩
  intro k hk d raw
  simp [processOutcome, hk]

/-- Witness for C1 with max_retries 2 and the concrete outcome sequence
429, 429, then a decoded verdict. -/
theorem makeRequest_backoff_429_witness :
    (makeRequest 2 (fun k => if k = 0 then .http 429 none ""
      else if k = 1 then .http 429 none ""
      else .ok createSafeResponse)).sleeps = [2000, 3000] ∧
    (makeRequest 2 (fun k => if k = 0 then .http 429 none ""
      else if k = 1 then .http 429 none ""
      else .ok createSafeResponse)).result = some (.ok createSafeResponse) :=
  ⟨(makeRequest_backoff_429 2 (by decide) _ createSafeResponse none none "" ""
      rfl rfl rfl).1,
    (makeRequest_backoff_429 2 (by decide) _ createSafeResponse none none "" ""
      rfl rfl rfl).2.1⟩

/-- C2 counterexample: a generic non-axios exception thrown during
processing at attempt index 0 with retries remaining (max_retries 1) is
retried after a 1000 ms sleep — two attempts and a non-empty sleep list —
rather than terminating the call immediately with zero sleeps. -/
theorem makeRequest_nonTransport_retried :
    (makeRequest (α := Unit) 1 (fun _ => .thrownOther "boom")).sleeps ≠ [] ∧
    (makeRequest (α := Unit) 1 (fun _ => .thrownOther "boom")).sleeps = [1000] ∧
    (makeRequest (α := Unit) 1 (fun _ => .thrownOther "boom")).attempts = 2 :=
  ⟨by decide, rfl, rfl⟩

/-- C2 amended: at any attempt index and any retry budget, a sleep-and-
retry step happens only for a retryable outcome (HTTP 429, timeout,
transport failure, or an unexpected non-axios exception that is not one
of the client's Authentication/Validation/RateLimit errors); HTTP 401,
HTTP 422, any other non-2xx status, and internally raised
Authentication/Validation/RateLimit errors produce their typed error at
once, and any `done` step terminates the loop immediately with zero
further sleeps and one attempt, regardless of remaining attempts. -/
theorem makeRequest_retry_classification (m a f : Nat) (outs : Nat → Outcome α)
    (d : Option String) (raw : String) (s : Nat) (emsg : String) :
    (∀ (o : Outcome α) ms, processOutcome m a o = .retry ms → retryableOutcome o = true) ∧
    processOutcome (α := α) m a (.http 401 d raw)
      = .done (.error (.authenticationError "Invalid API key")) ∧
    processOutcome (α := α) m a (.http 422 d raw)
      = .done (.error (.validationError
          ("Validation error: " ++ jsOrElse d "Validation error"))) ∧
    (s ≠ 401 → s ≠ 422 → s ≠ 429 →
      processOutcome (α := α) m a (.http s d raw)
        = .done (.error (.xiangxinAIError
            ("API request failed with status " ++ toString s ++ ": " ++ jsOrElse d raw)))) ∧
    processOutcome (α := α) m a (.thrownClientError (.authenticationError emsg))
      = .done (.error (.authenticationError emsg)) ∧
    processOutcome (α := α) m a (.thrownClientError (.validationError emsg))
      = .done (.error (.validationError emsg)) ∧
    processOutcome (α := α) m a (.thrownClientError (.rateLimitError emsg))
      = .done (.error (.rateLimitError emsg)) ∧
    (∀ r, processOutcome m a (outs a) = .done r →
      makeRequestLoop m outs a (f + 1) = ⟨[], 1, some r⟩) := by
  refine ⟨?_, by simp [processOutcome], by simp [processOutcome], ?_, rfl, rfl, rfl, ?_⟩
  · intro o ms h
    cases o with
    | ok v => simp [processOutcome] at h
    | http st dd rr =>
      simp only [processOutcome] at h
      split_ifs at h with h1 h2 h3 h4
      simp_all [retryableOutcome]
    | timeout => rfl
    | connFail => rfl
    | thrownClientError e =>
      cases e <;> simp_all [processOutcome, retryableOutcome]
    | thrownOther str => rfl
  · intro hn1 hn2 hn3
    simp [processOutcome, hn1, hn2, hn3]
  · intro r h
    rw [makeRequestLoop_succ, h]

/-- Witness for C2 amended: concrete instantiations of the hypothesis-
bearing conjuncts — a 500 status maps to the generic API error, and a
`done` classification (HTTP 401 at attempt 2 of 5) stops the loop at
once with no sleeps. -/
theorem makeRequest_retry_classification_witness :
    processOutcome (α := Unit) 5 2 (.http 500 none "body")
      = .done (.error (.xiangxinAIError "API request failed with status 500: body")) ∧
    makeRequestLoop (α := Unit) 5 (fun _ => .http 401 none "") 2 (3 + 1)
      = ⟨[], 1, some (.error (.authenticationError "Invalid API key"))⟩ :=
  ⟨(makeRequest_retry_classification 5 2 3 (fun _ => .http 401 none "")
      none "body" 500 "m").2.2.2.1 (by decide) (by decide) (by decide),
    (makeRequest_retry_classification 5 2 3 (fun _ => .http 401 none "")
      none "body" 500 "m").2.2.2.2.2.2.2
      (.error (.authenticationError "Invalid API key")) rfl⟩

/-- C3: for every max_retries and every infinite outcome sequence,
makeRequest performs at most max_retries + 1 HTTP attempts and always
terminates with a result (a value or a typed error), never falling
through the loop. -/
theorem makeRequest_terminates (m : Nat) (outs : Nat → Outcome α) :
    (makeRequest m outs).attempts ≤ m + 1 ∧ (makeRequest m outs).result.isSome := by
  constructor
  · exact makeRequestLoop_attempts_le m outs (m + 1) 0
  · exact makeRequestLoop_result_isSome m outs (m + 1) 0 (by omega) (by omega)

/-- C5: checkConversation fails with a ValidationError — produced in
place of any request action, so before network I/O — exactly when the
message sequence is missing or empty, or some element has a missing or
falsy role, a role outside the set user/system/assistant, or a
non-string content. -/
theorem checkConversation_validation (messages : Option (List RawMessage))
    (model : String) (uid : Option String) :
    (∃ s, checkConversation messages model uid = .fail (.validationError s)) ↔
    (messages = none ∨ messages = some [] ∨
      ∃ msgs, messages = some msgs ∧ ∃ msg ∈ msgs, badMessage msg = true) := by
  constructor
  · rintro ⟨s, hs⟩
    cases messages with
    | none => exact Or.inl rfl
    | some msgs =>
      cases msgs with
      | nil => exact Or.inr (Or.inl rfl)
      | cons m rest =>
        refine Or.inr (Or.inr ⟨m :: rest, rfl, ?_⟩)
        by_contra hno
        push_neg at hno
        have hwf : ∀ msg ∈ m :: rest, badMessage msg = false := by
          intro msg hm
          cases hbm : badMessage msg with
          | false => rfl
          | true => exact absurd hbm (hno msg hm)
        exact checkConversation_wf_not_fail (m :: rest) model uid (by simp) hwf _ hs
  · rintro (rfl | rfl | ⟨msgs, rfl, hbad⟩)
    · exact ⟨"Messages cannot be empty", rfl⟩
    · exact ⟨"Messages cannot be empty", rfl⟩
    · obtain ⟨s, hs⟩ := validateLoop_error_of_bad msgs hbad
      have hlen : ¬(msgs.length = 0) := by
        obtain ⟨m, hm, -⟩ := hbad
        cases msgs with
        | nil => exact absurd hm (List.not_mem_nil m)
        | cons a l => simp
      refine ⟨s, ?_⟩
      simp only [checkConversation, hs]
      rw [if_neg hlen]

/-- Witness for C5: a one-element conversation whose role is outside the
allowed set fails with a ValidationError. -/
theorem checkConversation_validation_witness :
    ∃ s, checkConversation (some [⟨some "admin", .str "x"⟩]) "m" none
      = .fail (.validationError s) :=
  (checkConversation_validation (some [⟨some "admin", .str "x"⟩]) "m" none).mpr
    (Or.inr (Or.inr ⟨[⟨some "admin", .str "x"⟩], rfl,
      ⟨⟨some "admin", .str "x"⟩, by simp, by decide⟩⟩))

/-- C6: a non-empty, well-formed conversation whose every content is
empty or whitespace-only resolves locally (no request) to the same
synthetic safe verdict that checkPrompt returns for empty input. -/
theorem checkConversation_allEmpty_short_circuit (msgs : List RawMessage)
    (model : String) (uid : Option String)
    (hne : msgs ≠ [])
    (hwf : ∀ msg ∈ msgs, badMessage msg = false)
    (hws : ∀ msg ∈ msgs, ∀ s, msg.content = .str s → ∀ c ∈ s.data, c.isWhitespace) :
    checkConversation (some msgs) model uid = .localVerdict createSafeResponse ∧
    checkPrompt "" uid = .localVerdict createSafeResponse := by
  refine ⟨?_, rfl⟩
  have hall : msgs.all (fun msg => !keepMsg msg) = true := by
    rw [List.all_eq_true]
    intro msg hm
    rw [keepMsg_eq]
    have hmt : jsTrim (rawContentStr msg) = "" := by
      cases hc : msg.content with
      | str s2 =>
        have hwhite := hws msg hm s2 hc
        have : rawContentStr msg = s2 := by simp [rawContentStr, hc]
        rw [this]
        exact jsTrim_eq_empty_of_whitespace s2 hwhite
      | other =>
        have : rawContentStr msg = "" := by simp [rawContentStr, hc]
        rw [this]
        rfl
    rw [hmt]
    rfl
  have hlen : ¬(msgs.length = 0) := by simpa using hne
  simp only [checkConversation, validateLoop_ok_of_wf msgs hwf]
  rw [if_neg hlen, hall]
  rfl

/-- Witness for C6: one user message whose content is a single space. -/
theorem checkConversation_allEmpty_short_circuit_witness :
    checkConversation (some [⟨some "user", .str " "⟩]) "m" none
      = .localVerdict createSafeResponse ∧
    checkPrompt "" none = .localVerdict createSafeResponse :=
  checkConversation_allEmpty_short_circuit [⟨some "user", .str " "⟩] "m" none
    (by simp) (by decide)
    (by
      intro msg hm s hc
      rw [List.mem_singleton] at hm
      subst hm
      cases hc
      decide)

/-- C10: for a well-formed conversation with at least one non-whitespace
content, the messages POSTed are exactly the input messages whose
trimmed content is non-empty, in their original order, each with its
role unchanged and its content forwarded verbatim (untrimmed) — whereas
checkPrompt sends the trimmed input. -/
theorem checkConversation_sends_filtered (msgs : List RawMessage)
    (model : String) (uid : Option String)
    (hwf : ∀ msg ∈ msgs, badMessage msg = false)
    (hne : ∃ msg ∈ msgs, jsTrim (rawContentStr msg) ≠ "") :
    checkConversation (some msgs) model uid = .request "POST" "/guardrails"
      (.convBody model
        ((msgs.filter (fun msg => !(jsTrim (rawContentStr msg)).isEmpty)).map
          (fun msg => ⟨msg.role.getD "", .str (rawContentStr msg)⟩))
        (jsOptTruthy uid)) ∧
    (∀ s, jsTrim s ≠ "" → checkPrompt s uid
      = .request "POST" "/guardrails/input" (.inputBody (jsTrim s) (jsOptTruthy uid))) := by
  obtain ⟨m0, hm0, hm0ne⟩ := hne
  have hkeep0 : keepMsg m0 = true := by
    rw [keepMsg_eq, isEmpty_eq_false_of_ne _ hm0ne]
    rfl
  have hfiltereq : msgs.filter keepMsg
      = msgs.filter (fun msg => !(jsTrim (rawContentStr msg)).isEmpty) :=
    List.filter_congr (fun msg _ => keepMsg_eq msg)
  constructor
  · have hlen : ¬(msgs.length = 0) := by
      cases msgs with
      | nil => exact absurd hm0 (List.not_mem_nil m0)
      | cons a l => simp
    have hallfalse : msgs.all (fun msg => !keepMsg msg) = false := by
      rw [List.all_eq_false]
      exact ⟨m0, hm0, by rw [hkeep0]; simp⟩
    have hflen : ¬((msgs.filter keepMsg).map
        (fun msg => (⟨msg.role.getD "", .str (rawContentStr msg)⟩ : Message))).length = 0 := by
      rw [List.length_map]
      have : m0 ∈ msgs.filter keepMsg := List.mem_filter.mpr ⟨hm0, hkeep0⟩
      cases hf : msgs.filter keepMsg with
      | nil => rw [hf] at this; exact absurd this (List.not_mem_nil m0)
      | cons a l => simp
    simp only [checkConversation, validateLoop_ok_of_wf msgs hwf]
    rw [if_neg hlen, hallfalse, if_neg hflen, hfiltereq]
    rfl
  · intro s hs
    unfold checkPrompt
    rw [orEmpty_eq, isEmpty_eq_false_of_ne _ hs]
    rfl

/-- Witness for C10: a two-message conversation in which only the first
message survives filtering, with its padded content forwarded verbatim;
checkPrompt by contrast sends the trimmed string. -/
theorem checkConversation_sends_filtered_witness :
    checkConversation (some [⟨some "user", .str " hi "⟩, ⟨some "assistant", .str " "⟩])
        "m" none
      = .request "POST" "/guardrails"
          (.convBody "m" [⟨"user", .str " hi "⟩] none) ∧
    checkPrompt " x " none
      = .request "POST" "/guardrails/input" (.inputBody "x" none) :=
  ⟨(checkConversation_sends_filtered
      [⟨some "user", .str " hi "⟩, ⟨some "assistant", .str " "⟩] "m" none
      (by decide) ⟨⟨some "user", .str " hi "⟩, by simp, by decide⟩).1,
    (checkConversation_sends_filtered
      [⟨some "user", .str " hi "⟩, ⟨some "assistant", .str " "⟩] "m" none
      (by decide) ⟨⟨some "user", .str " hi "⟩, by simp, by decide⟩).2 " x " (by decide)⟩

/-- C8: checkPromptImage rejects an empty image reference and
checkPromptImages rejects a missing or empty image list with a
ValidationError before any I/O, whatever the prompt; conversely, with at
least one image supplied neither operation ever returns the local
synthetic safe verdict, and when resolution succeeds a network request
is issued even for an empty prompt. -/
theorem imageChecks_require_image (prompt model : String) (uid : Option String)
    (resolve : String → ImageResult) (image : String) :
    checkPromptImage prompt "" model uid resolve
      = .fail (.validationError "Image path cannot be empty") ∧
    checkPromptImages prompt none model uid resolve
      = .fail (.validationError "Images list cannot be empty") ∧
    checkPromptImages prompt (some []) model uid resolve
      = .fail (.validationError "Images list cannot be empty") ∧
    (image ≠ "" → ∀ r, checkPromptImage prompt image model uid resolve ≠ .localVerdict r) ∧
    (image ≠ "" → ∀ b, resolve image = .ok b →
      ∃ body, checkPromptImage prompt image model uid resolve
        = .request "POST" "/guardrails" body) ∧
    (∀ imgs : List String, imgs ≠ [] →
      ∀ r, checkPromptImages prompt (some imgs) model uid resolve ≠ .localVerdict r) ∧
    (∀ imgs : List String, imgs ≠ [] → (∀ i ∈ imgs, ∃ b, resolve i = .ok b) →
      ∃ body, checkPromptImages prompt (some imgs) model uid resolve
        = .request "POST" "/guardrails" body) := by
  refine ⟨rfl, rfl, rfl, ?_, ?_, ?_, ?_⟩
  · intro hne r hcontra
    cases hres : resolve image <;>
      simp [checkPromptImage, isEmpty_eq_false_of_ne image hne, hres] at hcontra
  · intro hne b hb
    refine ⟨.convBody model
      [⟨"user", .parts ((if !prompt.isEmpty && !(jsTrim prompt).isEmpty
        then [.text (jsTrim prompt)] else [])
        ++ [.image ("data:image/jpeg;base64," ++ b)])⟩] (jsOptTruthy uid), ?_⟩
    unfold checkPromptImage
    rw [isEmpty_eq_false_of_ne image hne, hb]
    rfl
  · intro imgs hne r hcontra
    have hlen : ¬(imgs.length = 0) := by simpa using hne
    cases henc : encodeImages resolve imgs <;>
      simp [checkPromptImages, hlen, henc] at hcontra
  · intro imgs hne hall
    obtain ⟨ps, hps⟩ := encodeImages_ok_of_all resolve imgs hall
    have hlen : ¬(imgs.length = 0) := by simpa using hne
    refine ⟨.convBody model
      [⟨"user", .parts ((if !prompt.isEmpty && !(jsTrim prompt).isEmpty
        then [.text (jsTrim prompt)] else []) ++ ps)⟩] (jsOptTruthy uid), ?_⟩
    unfold checkPromptImages
    dsimp only
    rw [if_neg hlen, hps]

/-- Witness for C8: a single resolvable image with an empty prompt still
issues a network request, never the local safe verdict, for both the
single-image and the list operations. -/
theorem imageChecks_require_image_witness :
    (∀ r, checkPromptImage "" "img.jpg" "VL" none (fun _ => .ok "QUJD")
      ≠ .localVerdict r) ∧
    (∃ body, checkPromptImage "" "img.jpg" "VL" none (fun _ => .ok "QUJD")
      = .request "POST" "/guardrails" body) ∧
    (∃ body, checkPromptImages "" (some ["img.jpg"]) "VL" none (fun _ => .ok "QUJD")
      = .request "POST" "/guardrails" body) :=
  ⟨(imageChecks_require_image "" "VL" none (fun _ => .ok "QUJD") "img.jpg").2.2.2.1
      (by decide),
    (imageChecks_require_image "" "VL" none (fun _ => .ok "QUJD") "img.jpg").2.2.2.2.1
      (by decide) "QUJD" rfl,
    (imageChecks_require_image "" "VL" none (fun _ => .ok "QUJD") "img.jpg").2.2.2.2.2.2
      ["img.jpg"] (by decide) (fun i hi => ⟨"QUJD", rfl⟩)⟩

/-- C9: a non-empty image reference that resolves with a file-not-found
failure yields a ValidationError whose message contains the reference,
in both operations (after any prefix of successfully resolved images);
any other resolution failure yields the generic client error carrying
the underlying cause's message. -/
theorem image_resolution_errors (prompt image model : String) (uid : Option String)
    (resolve : String → ImageResult) (emsg : String) (pre rest : List String) :
    (image ≠ "" → resolve image = .enoent →
      checkPromptImage prompt image model uid resolve
        = .fail (.validationError ("Image file not found: " ++ image)) ∧
      ∃ a b, "Image file not found: " ++ image = a ++ image ++ b) ∧
    (image ≠ "" → resolve image = .otherError emsg →
      checkPromptImage prompt image model uid resolve
        = .fail (.xiangxinAIError ("Failed to encode image: " ++ emsg)) ∧
      ∃ a b, "Failed to encode image: " ++ emsg = a ++ emsg ++ b) ∧
    ((∀ i ∈ pre, ∃ b, resolve i = .ok b) → resolve image = .enoent →
      checkPromptImages prompt (some (pre ++ image :: rest)) model uid resolve
        = .fail (.validationError ("Image file not found: " ++ image))) ∧
    ((∀ i ∈ pre, ∃ b, resolve i = .ok b) → resolve image = .otherError emsg →
      checkPromptImages prompt (some (pre ++ image :: rest)) model uid resolve
        = .fail (.xiangxinAIError ("Failed to encode image " ++ image ++ ": " ++ emsg))) := by
  have hlen : ¬((pre ++ image :: rest).length = 0) := by
    simp [List.length_append]
  refine ⟨?_, ?_, ?_, ?_⟩
  · intro hne hres
    refine ⟨?_, "Image file not found: ", "", (String.append_empty _).symm⟩
    unfold checkPromptImage
    rw [isEmpty_eq_false_of_ne image hne, hres]
    rfl
  · intro hne hres
    refine ⟨?_, "Failed to encode image: ", "", (String.append_empty _).symm⟩
    unfold checkPromptImage
    rw [isEmpty_eq_false_of_ne image hne, hres]
    rfl
  · intro hpre hres
    have hx : encodeImages resolve (image :: rest)
        = .error (.validationError ("Image file not found: " ++ image)) := by
      rw [encodeImages, hres]
    have herr := encodeImages_append_error resolve pre hpre _ _ hx
    unfold checkPromptImages
    dsimp only
    rw [if_neg hlen, herr]
  · intro hpre hres
    have hx : encodeImages resolve (image :: rest)
        = .error (.xiangxinAIError ("Failed to encode image " ++ image ++ ": " ++ emsg)) := by
      rw [encodeImages, hres]
    have herr := encodeImages_append_error resolve pre hpre _ _ hx
    unfold checkPromptImages
    dsimp only
    rw [if_neg hlen, herr]

/-- Witness for C9: a missing local file yields the ValidationError
naming the file; a second image failing for another reason (after one
success) yields the generic error carrying the cause. -/
theorem image_resolution_errors_witness :
    checkPromptImage "" "missing.jpg" "VL" none (fun _ => .enoent)
      = .fail (.validationError ("Image file not found: " ++ "missing.jpg")) ∧
    checkPromptImages "" (some ["ok.jpg", "bad.jpg"]) "VL" none
        (fun p => if p = "ok.jpg" then .ok "QUJD" else .otherError "denied")
      = .fail (.xiangxinAIError ("Failed to encode image " ++ "bad.jpg" ++ ": " ++ "denied")) :=
  ⟨((image_resolution_errors "" "missing.jpg" "VL" none (fun _ => .enoent)
      "e" [] []).1 (by decide) rfl).1,
    (image_resolution_errors "" "bad.jpg" "VL" none
      (fun p => if p = "ok.jpg" then .ok "QUJD" else .otherError "denied")
      "denied" ["ok.jpg"] []).2.2.2
      (fun i hi => by
        rw [List.mem_singleton] at hi
        subst hi
        exact ⟨"QUJD", rfl⟩)
      rfl⟩

end Claims

end Xiangxinai
